import Mathlib

/-!
# Verification of `src/modules/output_handler.py` (nc-userimporter)

A shallow embedding of the module's three entry points —
`generate_qr_code`, `fetch_logo_and_site_name` and `generate_pdf`
(with its helpers `add_app_store_buttons`, `add_greeting_and_password`,
`_build_single_user_section`) — followed by theorems settling the frozen
claims about the module.

Modelling conventions:
* Python strings are `String`; `os.path.join`, `str.rstrip("/")`,
  `str.strip()`, `str.startswith` and string truthiness are modelled by
  the `py*` helpers below, after posixpath semantics.
* Network, HTML parsing and the filesystem are oracles (`Web`, `Fs`):
  each fallible library call is a field returning `Except PyError _`.
* Python exceptions are the `Except PyError` monad; a `try/except` block
  that swallows everything is a total function recording in `raised`
  whether the body threw.
* reportlab flowables become the inductive `Flowable`; appending to the
  mutable `story` list becomes returning the list of appended flowables,
  concatenated by the caller in program order.  `doc.build` is modelled
  as emitting the finished `PdfDoc` value (story, background, font,
  output path).
-/

/-- Python exception values relevant to this module. -/
inductive PyError where
  | keyError (key : String)
  | exn (msg : String)
deriving DecidableEq, Repr

/-- Character-list prefix test (first list starts with the second). -/
def charsStartWith : List Char → List Char → Bool
  | _, [] => true
  | [], _ :: _ => false
  | a :: as, b :: bs => a == b && charsStartWith as bs

/-- Python `s.startswith(pre)`. -/
def pyStartsWith (s pre : String) : Bool := charsStartWith s.data pre.data

/-- Python `s.endswith(suf)`. -/
def pyEndsWith (s suf : String) : Bool :=
  charsStartWith s.data.reverse suf.data.reverse

/-- Python `s.strip()`: drop leading and trailing whitespace. -/
def pyStrip (s : String) : String :=
  String.mk (((s.data.dropWhile Char.isWhitespace).reverse.dropWhile
    Char.isWhitespace).reverse)

/-- Python `os.path.join(a, b)` for two components (posixpath semantics). -/
def pyJoin (a b : String) : String :=
  if pyStartsWith b "/" then b
  else if a = "" then b
  else if pyEndsWith a "/" then a ++ b
  else a ++ "/" ++ b

/-- Python `s.rstrip("/")`: drop all trailing `'/'` characters. -/
def pyRstripSlash (s : String) : String :=
  String.mk ((s.toList.reverse.dropWhile (· == '/')).reverse)

/-- Python truthiness of a string: non-empty strings are truthy. -/
def pyTruthy (s : String) : Bool := s ≠ ""

/-- Python `str(x)` for an `Optional[str]` value (`None` prints as "None"). -/
def pyStrOpt : Option String → String
  | some s => s
  | none => "None"

/-! ## `generate_qr_code` -/

/-- The `qrcode.QRCode(...)` constructor arguments used by the module. -/
structure QRParams where
  version : Nat
  errorCorrection : String
  boxSize : Nat
  border : Nat
deriving DecidableEq, Repr

/-- The image produced by `qr.make_image(fill_color=..., back_color=...)`
after `qr.add_data(data)`. -/
structure QRImageFile where
  data : String
  params : QRParams
  fillColor : String
  backColor : String
deriving DecidableEq, Repr

/-- `generate_qr_code(data, output_dir, filename)`: returns the list of
`(path, image)` file writes performed and the returned path string. -/
def generate_qr_code (data output_dir filename : String) :
    List (String × QRImageFile) × String :=
  let qr : QRParams :=
    { version := 1, errorCorrection := "ERROR_CORRECT_L", boxSize := 10, border := 4 }
  let img : QRImageFile :=
    { data := data, params := qr, fillColor := "black", backColor := "white" }
  let img_path := pyJoin output_dir (filename ++ ".jpg")
  ([(img_path, img)], img_path)

/-! ## `fetch_logo_and_site_name` -/

/-- A `requests` response: `.text` (decoded body) and `.content` (raw body,
modelled as a string of bytes). -/
structure HttpResponse where
  text : String
  content : String
deriving DecidableEq, Repr

/-- The HTML tag returned by `soup.select_one(...)`; only `.text` is used. -/
structure Tag where
  text : String
deriving DecidableEq, Repr

/-- A parsed `BeautifulSoup` document, exposing the single CSS query the
module performs: `select_one("body > footer > p > a")`. -/
structure Soup where
  selectFooter : Option Tag

/-- Oracle for the fallible library calls inside the `try` block:
`requests.get(url, timeout=10)`, `BeautifulSoup(text, "html.parser")`,
and `open(path, "wb").write(content)`. -/
structure Web where
  get : String → Except PyError HttpResponse
  parse : String → Except PyError Soup
  write : String → String → Except PyError Unit

/-- Observable I/O effects of the fetcher, in program order. -/
inductive Effect where
  | httpGet (url : String) (timeout : Nat)
  | fileWrite (path content : String)
deriving DecidableEq, Repr

/-- Outcome of one call to `fetch_logo_and_site_name`: the returned triple
`(logo_path, bg_path, site_name)`, the I/O trace, and whether the `try`
body raised (and was caught). -/
structure FetchRun where
  result : Option String × Option String × String
  trace : List Effect
  raised : Bool

/-- The `except Exception: return None, None, config_ncUrl` branch. -/
def fetchCaught (config_ncUrl : String) (tr : List Effect) : FetchRun :=
  { result := (none, none, config_ncUrl), trace := tr, raised := true }

/-- `url = f"https://{config_ncUrl}" if not config_ncUrl.startswith("http")
else config_ncUrl`. -/
def normalizeUrl (config_ncUrl : String) : String :=
  if !(pyStartsWith config_ncUrl "http") then "https://" ++ config_ncUrl
  else config_ncUrl

/-- `site_name = site_name_a.text.strip() if site_name_a else config_ncUrl`. -/
def siteNameOf (soup : Soup) (config_ncUrl : String) : String :=
  match soup.selectFooter with
  | some a => pyStrip a.text
  | none => config_ncUrl

/-- Final lines of the `try` body: select the footer link and return. -/
def fetchFinish (soup : Soup) (logoOpt bgOpt : Option String)
    (config_ncUrl : String) (tr : List Effect) : FetchRun :=
  { result := (logoOpt, bgOpt, siteNameOf soup config_ncUrl), trace := tr, raised := false }

/-- The background block: build `bg_url`, and when it is truthy GET it and
write the bytes to `site_bg.jpg`, else set `bg_path = None`; then finish. -/
def fetchBg (w : Web) (url tmp_dir config_ncUrl : String) (soup : Soup)
    (logoOpt : Option String) (tr : List Effect) : FetchRun :=
  let bg_url := pyRstripSlash url ++ "/" ++ "apps/theming/image/background"
  let bg_path := pyJoin tmp_dir "site_bg.jpg"
  if pyTruthy bg_url then
    match w.get bg_url with
    | .error _ => fetchCaught config_ncUrl (tr ++ [.httpGet bg_url 10])
    | .ok bg_resp =>
      match w.write bg_path bg_resp.content with
      | .error _ => fetchCaught config_ncUrl (tr ++ [.httpGet bg_url 10])
      | .ok _ =>
        fetchFinish soup logoOpt (some bg_path) config_ncUrl
          (tr ++ [.httpGet bg_url 10, .fileWrite bg_path bg_resp.content])
  else
    fetchFinish soup logoOpt none config_ncUrl tr

/-- The logo block: build `logo_url`, and when it is truthy GET it and
write the bytes to `site_logo.jpg`, else set `logo_path = None`; then the
background block. -/
def fetchLogo (w : Web) (url tmp_dir config_ncUrl : String) (soup : Soup)
    (tr : List Effect) : FetchRun :=
  let logo_url := pyRstripSlash url ++ "/" ++ "apps/theming/image/logoheader"
  let logo_path := pyJoin tmp_dir "site_logo.jpg"
  if pyTruthy logo_url then
    match w.get logo_url with
    | .error _ => fetchCaught config_ncUrl (tr ++ [.httpGet logo_url 10])
    | .ok img_resp =>
      match w.write logo_path img_resp.content with
      | .error _ => fetchCaught config_ncUrl (tr ++ [.httpGet logo_url 10])
      | .ok _ =>
        fetchBg w url tmp_dir config_ncUrl soup (some logo_path)
          (tr ++ [.httpGet logo_url 10, .fileWrite logo_path img_resp.content])
  else
    fetchBg w url tmp_dir config_ncUrl soup none tr

/-- `fetch_logo_and_site_name(config_ncUrl, tmp_dir)`: normalise the URL,
GET the root page, parse it, download the two theming images, scrape the
footer for the site name; any exception in the `try` body degrades to
`(None, None, config_ncUrl)`. -/
def fetch_logo_and_site_name (w : Web) (config_ncUrl tmp_dir : String) : FetchRun :=
  let url := normalizeUrl config_ncUrl
  match w.get url with
  | .error _ => fetchCaught config_ncUrl [.httpGet url 10]
  | .ok response =>
    match w.parse response.text with
    | .error _ => fetchCaught config_ncUrl [.httpGet url 10]
    | .ok soup => fetchLogo w url tmp_dir config_ncUrl soup [.httpGet url 10]

/-! ## `generate_pdf` and helpers -/

/-- A cell of a reportlab `Table`: the module puts either a plain string
(the credential tables) or a `ClickableImage` (the app-store buttons). -/
inductive Cell where
  | str (s : String)
  | clickable (image_path url : String) (width height : Nat)
deriving DecidableEq, Repr

/-- The reportlab flowables the module appends to `story`. -/
inductive Flowable where
  | image (path : String) (width height : Nat)
  | paragraph (text style : String)
  | spacer (width height : Nat)
  | table (cells : List (List Cell)) (styleCmds : List String)
  | pageBreak
deriving DecidableEq, Repr

/-- `nclogo = "assets/Nextcloud_Logo.jpg"`. -/
def nclogo : String := "assets/Nextcloud_Logo.jpg"

/-- `im = Image(nclogo, 150, 106)`, the module-level default logo. -/
def im : Flowable := .image nclogo 150 106

/-- A user dict: the four keys this module reads from a per-user record.
`none` models an absent key (`dict[k]` raises `KeyError`, `dict.get(k)`
yields `None`). -/
structure UserData where
  username : Option String
  password : Option String
  displayname : Option String
  qr_code_path : Option String
deriving DecidableEq, Repr

/-- The `user_data` argument of `generate_pdf`: a dict that may carry the
per-user keys (single-user mode) or a `"users"` list (multi-user mode). -/
structure UserArg where
  username : Option String
  password : Option String
  displayname : Option String
  qr_code_path : Option String
  users : Option (List UserData)

/-- The per-user view of a `UserArg` (the keys single-user mode reads). -/
def UserArg.toUserData (a : UserArg) : UserData :=
  { username := a.username, password := a.password,
    displayname := a.displayname, qr_code_path := a.qr_code_path }

/-- The translation dict `lang`: `none` models an absent key. -/
def Lang : Type := String → Option String

/-- Python `lang.get(key, default)`. -/
def langGet (lang : Lang) (key default : String) : String :=
  (lang key).getD default

/-- Filesystem/environment oracle for `generate_pdf`:
`os.path.exists`, whether `pdfmetrics.registerFont` succeeds, and
`os.path.dirname(__file__)`. -/
structure Fs where
  pathExists : String → Bool
  fontRegisterOk : Bool
  moduleDir : String

/-- `font_path = os.path.join(os.path.dirname(__file__),
"../assets/IBMPlexSans-Regular.ttf")`. -/
def fontPath (fs : Fs) : String :=
  pyJoin fs.moduleDir "../assets/IBMPlexSans-Regular.ttf"

/-- Font selection: register IBMPlexSans when the file exists and
registration does not raise, else fall back to Helvetica. -/
def customFont (fs : Fs) : String :=
  if fs.pathExists (fontPath fs) then
    if fs.fontRegisterOk then "IBMPlexSans" else "Helvetica"
  else "Helvetica"

/-- `im_site = im; if logo_path and os.path.exists(logo_path):
im_site = Image(logo_path, 150, 150)`. -/
def imSiteOf (fs : Fs) (logo_path : Option String) : Flowable :=
  match logo_path with
  | some p => if fs.pathExists p then .image p 150 150 else im
  | none => im

/-- `bg_image = bg_path if bg_path and os.path.exists(bg_path) else None`. -/
def bgImageOf (fs : Fs) (bg_path : Option String) : Option String :=
  match bg_path with
  | some p => if fs.pathExists p then some p else none
  | none => none

/-- Path of the bundled Google Play badge. -/
def googlePlayImg (fs : Fs) : String :=
  pyJoin fs.moduleDir "../assets/google_play.jpg"

/-- Path of the bundled App Store badge. -/
def appStoreImg (fs : Fs) : String :=
  pyJoin fs.moduleDir "../assets/app_store.jpg"

/-- The `TableStyle` commands of the two credential tables. -/
def credTableStyle : List String :=
  ["BACKGROUND", "BOX", "ALIGN", "VALIGN", "FONTSIZE", "FONTNAME",
   "TOPPADDING", "BOTTOMPADDING"]

/-- `add_app_store_buttons(story, styles, lang)`: the flowables it appends. -/
def add_app_store_buttons (fs : Fs) (lang : Lang) : List Flowable :=
  let download_text := langGet lang "output_handler_download_app"
    "Скачайте приложение Nextcloud Talk на своё мобильное устройство:"
  let btn_row : List Cell :=
    (if fs.pathExists (googlePlayImg fs) then
      [Cell.clickable (googlePlayImg fs)
        "https://play.google.com/store/apps/details?id=com.nextcloud.talk2" 140 45]
     else []) ++
    (if fs.pathExists (appStoreImg fs) then
      [Cell.clickable (appStoreImg fs)
        "https://itunes.apple.com/us/app/nextcloud-talk/id1296825574" 140 45]
     else [])
  [Flowable.paragraph ("<font size=14>" ++ download_text ++ "</font>") "Normal",
   .spacer 1 14] ++
  (if btn_row.length > 0 then [Flowable.table [btn_row] [], .spacer 1 24] else [])

/-- The flowable sequence `add_greeting_and_password` appends once the
`displayname`, `username` and `password` values are in hand: greeting,
account-created message, login instructions, site URL, then the two boxed
single-cell credential tables with their labels. -/
def greetingFlowables (displayname username password : String) (lang : Lang)
    (site_name : Option String) (config_ncUrl : String) : List Flowable :=
  [Flowable.paragraph ("<font size=14>" ++
      langGet lang "output_handler_greeting"
        "Missing translation string for: output_handler_greeting" ++
      " " ++ displayname ++ ",</font>") "Justify",
   .spacer 1 12,
   .paragraph ("<font size=14>" ++
      langGet lang "output_handler_account_created"
        "Missing translation string for: output_handler_account_created" ++
      " " ++ pyStrOpt site_name ++ "</font>") "Justify",
   .spacer 1 12,
   .paragraph ("<font size=14>" ++
      langGet lang "output_handler_login_instructions"
        "Missing translation string for: output_handler_login_instructions" ++
      "</font>") "Normal",
   .spacer 1 24,
   .paragraph ("<font size=14>" ++
      langGet lang "output_handler_nc_url"
        "Missing translation string for: output_handler_nc_url" ++
      ": " ++ config_ncUrl ++ "</font>") "Normal",
   .spacer 1 24,
   .paragraph ("<font size=14>" ++
      langGet lang "output_handler_username" "Username" ++ ":</font>") "Normal",
   .spacer 1 10,
   .table [[Cell.str username]] credTableStyle,
   .spacer 1 20,
   .paragraph ("<font size=14>" ++
      langGet lang "output_handler_password" "Password" ++ ":</font>") "Normal",
   .spacer 1 10,
   .table [[Cell.str password]] credTableStyle,
   .spacer 1 20]

/-- `add_greeting_and_password(story, styles, user_data, lang, site_name,
config_ncUrl)`: the flowables it appends, or the `KeyError` it raises.
`user_data["username"]` / `user_data["password"]` raise when absent, in
that order; a missing `displayname` falls back to the username. -/
def add_greeting_and_password (user_data : UserData) (lang : Lang)
    (site_name : Option String) (config_ncUrl : String) :
    Except PyError (List Flowable) :=
  let strippedDn := pyStrip (user_data.displayname.getD "")
  let dnE : Except PyError String :=
    if strippedDn = "" then
      match user_data.username with
      | some u => .ok u
      | none => .error (.keyError "username")
    else .ok strippedDn
  match dnE with
  | .error e => .error e
  | .ok displayname =>
    match user_data.username with
    | none => .error (.keyError "username")
    | some username =>
      match user_data.password with
      | none => .error (.keyError "password")
      | some password =>
        .ok (greetingFlowables displayname username password lang site_name config_ncUrl)

/-- The QR block of `_build_single_user_section`: when `qr_code_path` is
set and the file exists, the alternative-text caption, a spacer, and the
QR image; otherwise nothing. -/
def qrFlowables (fs : Fs) (qr_code_path : Option String) (lang : Lang) :
    List Flowable :=
  match qr_code_path with
  | some p =>
    if fs.pathExists p then
      [Flowable.paragraph ("<font size=14>" ++
          langGet lang "output_handler_qr_code_alternative"
            "Missing translation string for: output_handler_qr_code_alternative" ++
          "</font>") "Normal",
       .spacer 1 24,
       .image p 150 150]
    else []
  | none => []

/-- `_build_single_user_section(story, styles, user_data, qr_code_path,
config_ncUrl, lang, im_site, site_name)`: the flowables it appends, or
the `KeyError` raised by `add_greeting_and_password`. -/
def _build_single_user_section (fs : Fs) (user_data : UserData)
    (qr_code_path : Option String) (config_ncUrl : String) (lang : Lang)
    (im_site : Flowable) (site_name : Option String) :
    Except PyError (List Flowable) :=
  match add_greeting_and_password user_data lang site_name config_ncUrl with
  | .error e => .error e
  | .ok greeting =>
    .ok ([im_site, .spacer 1 8] ++ greeting ++ qrFlowables fs qr_code_path lang ++
         [.spacer 1 24] ++ add_app_store_buttons fs lang)

/-- The `for user in user_data["users"]` loop body of `generate_pdf`:
build each user's section with that record's own `qr_code_path` key and
append a `PageBreak()` after it. -/
def buildMultiStory (fs : Fs) (config_ncUrl : String) (lang : Lang)
    (im_site : Flowable) (site_name : Option String) :
    List UserData → Except PyError (List Flowable)
  | [] => .ok []
  | u :: rest =>
    match _build_single_user_section fs u u.qr_code_path config_ncUrl lang
        im_site site_name with
    | .error e => .error e
    | .ok sec =>
      match buildMultiStory fs config_ncUrl lang im_site site_name rest with
      | .error e => .error e
      | .ok tail => .ok (sec ++ [Flowable.pageBreak] ++ tail)

/-- The document handed to `doc.build`: output path, selected font, the
background drawn on every page, and the story. -/
structure PdfDoc where
  output_filepath : String
  font : String
  background : Option String
  story : List Flowable
deriving Repr

/-- `generate_pdf(user_data, qr_code_path, output_filepath, config_ncUrl,
lang, multi_user, ..., logo_path, bg_path, site_name)`: font selection,
logo/background fallback, then one section (single-user) or one section
plus `PageBreak()` per user of `user_data["users"]` (multi-user);
`KeyError`s from missing dict keys propagate. -/
def generate_pdf (fs : Fs) (user_data : UserArg) (qr_code_path : Option String)
    (output_filepath config_ncUrl : String) (lang : Lang) (multi_user : Bool)
    (logo_path bg_path : Option String) (site_name : Option String) :
    Except PyError PdfDoc :=
  let font := customFont fs
  let im_site := imSiteOf fs logo_path
  let bg_image := bgImageOf fs bg_path
  let storyE : Except PyError (List Flowable) :=
    if multi_user then
      match user_data.users with
      | none => .error (.keyError "users")
      | some users => buildMultiStory fs config_ncUrl lang im_site site_name users
    else
      _build_single_user_section fs user_data.toUserData qr_code_path
        config_ncUrl lang im_site site_name
  match storyE with
  | .error e => .error e
  | .ok story =>
    .ok { output_filepath := output_filepath, font := font,
          background := bg_image, story := story }

/-- Image paths occurring in a story, in order. -/
def imagePaths (story : List Flowable) : List String :=
  story.filterMap fun f =>
    match f with
    | .image p _ _ => some p
    | _ => none

/-- Clickable-image cells occurring in a story's tables, in order. -/
def clickableCells (story : List Flowable) : List (String × String) :=
  story.flatMap fun f =>
    match f with
    | .table cells _ =>
      cells.flatMap fun row =>
        row.filterMap fun c =>
          match c with
          | .clickable p u _ _ => some (p, u)
          | _ => none
    | _ => []

/-- The string-celled tables of a story with their style commands, in order. -/
def strTables (story : List Flowable) : List (List (List Cell) × List String) :=
  story.filterMap fun f =>
    match f with
    | .table cells style => some (cells, style)
    | _ => none

/-! ## Helper lemmas about the fetcher -/

theorem append_ne_empty_right (a s : String) (hs : s ≠ "") : (a ++ s) ≠ "" := by
  intro h
  apply hs
  have hd := congrArg String.data h
  rw [String.data_append] at hd
  have h2 := (List.append_eq_nil.mp hd).2
  cases s with
  | mk l => cases h2; rfl

/-- The constructed logo theming URL is a non-empty (truthy) string. -/
theorem logo_url_truthy (u : String) :
    pyTruthy (pyRstripSlash u ++ "/" ++ "apps/theming/image/logoheader") = true := by
  have h := append_ne_empty_right (pyRstripSlash u ++ "/")
    "apps/theming/image/logoheader" (by decide)
  simp [pyTruthy, h]

/-- The constructed background theming URL is a non-empty (truthy) string. -/
theorem bg_url_truthy (u : String) :
    pyTruthy (pyRstripSlash u ++ "/" ++ "apps/theming/image/background") = true := by
  have h := append_ne_empty_right (pyRstripSlash u ++ "/")
    "apps/theming/image/background" (by decide)
  simp [pyTruthy, h]

/-- `fetchBg` either ends in the catch branch, or finishes with the fixed
background path. -/
theorem fetchBg_cases (w : Web) (url tmp_dir config_ncUrl : String) (soup : Soup)
    (logoOpt : Option String) (tr : List Effect) :
    ((fetchBg w url tmp_dir config_ncUrl soup logoOpt tr).raised = true ∧
     (fetchBg w url tmp_dir config_ncUrl soup logoOpt tr).result =
       (none, none, config_ncUrl)) ∨
    (∃ tr', fetchBg w url tmp_dir config_ncUrl soup logoOpt tr =
      fetchFinish soup logoOpt (some (pyJoin tmp_dir "site_bg.jpg")) config_ncUrl tr') := by
  simp only [fetchBg, bg_url_truthy, if_true]
  cases hg : w.get (pyRstripSlash url ++ "/" ++ "apps/theming/image/background") with
  | error e => left; exact ⟨rfl, rfl⟩
  | ok resp =>
    dsimp only
    cases hw : w.write (pyJoin tmp_dir "site_bg.jpg") resp.content with
    | error e => left; exact ⟨rfl, rfl⟩
    | ok u => right; exact ⟨_, rfl⟩

/-- `fetchLogo` either ends in the catch branch, or finishes with the two
fixed scratch-file paths. -/
theorem fetchLogo_cases (w : Web) (url tmp_dir config_ncUrl : String) (soup : Soup)
    (tr : List Effect) :
    ((fetchLogo w url tmp_dir config_ncUrl soup tr).raised = true ∧
     (fetchLogo w url tmp_dir config_ncUrl soup tr).result =
       (none, none, config_ncUrl)) ∨
    (∃ tr', fetchLogo w url tmp_dir config_ncUrl soup tr =
      fetchFinish soup (some (pyJoin tmp_dir "site_logo.jpg"))
        (some (pyJoin tmp_dir "site_bg.jpg")) config_ncUrl tr') := by
  simp only [fetchLogo, logo_url_truthy, if_true]
  cases hg : w.get (pyRstripSlash url ++ "/" ++ "apps/theming/image/logoheader") with
  | error e => left; exact ⟨rfl, rfl⟩
  | ok resp =>
    dsimp only
    cases hw : w.write (pyJoin tmp_dir "site_logo.jpg") resp.content with
    | error e => left; exact ⟨rfl, rfl⟩
    | ok u =>
      dsimp only
      exact fetchBg_cases w url tmp_dir config_ncUrl soup
        (some (pyJoin tmp_dir "site_logo.jpg")) _

/-- Every run of `fetch_logo_and_site_name` is either a caught exception
(returning the degraded triple) or a successful finish through the root
GET, the parse, and both theming downloads. -/
theorem fetch_cases (w : Web) (config_ncUrl tmp_dir : String) :
    ((fetch_logo_and_site_name w config_ncUrl tmp_dir).raised = true ∧
     (fetch_logo_and_site_name w config_ncUrl tmp_dir).result =
       (none, none, config_ncUrl)) ∨
    (∃ resp soup tr, w.get (normalizeUrl config_ncUrl) = .ok resp ∧
       w.parse resp.text = .ok soup ∧
       fetch_logo_and_site_name w config_ncUrl tmp_dir =
         fetchFinish soup (some (pyJoin tmp_dir "site_logo.jpg"))
           (some (pyJoin tmp_dir "site_bg.jpg")) config_ncUrl tr) := by
  simp only [fetch_logo_and_site_name]
  cases hget : w.get (normalizeUrl config_ncUrl) with
  | error e => left; exact ⟨rfl, rfl⟩
  | ok resp =>
    dsimp only
    cases hparse : w.parse resp.text with
    | error e => left; exact ⟨rfl, rfl⟩
    | ok soup =>
      dsimp only
      rcases fetchLogo_cases w (normalizeUrl config_ncUrl) tmp_dir config_ncUrl soup
        [.httpGet (normalizeUrl config_ncUrl) 10] with ⟨h1, h2⟩ | ⟨tr, h⟩
      · left; exact ⟨h1, h2⟩
      · right; exact ⟨resp, soup, tr, rfl, hparse, h⟩

/-- `fetchBg` only extends the trace it is given. -/
theorem fetchBg_trace_ext (w : Web) (url tmp_dir config_ncUrl : String) (soup : Soup)
    (logoOpt : Option String) (tr : List Effect) :
    ∃ t, (fetchBg w url tmp_dir config_ncUrl soup logoOpt tr).trace = tr ++ t := by
  simp only [fetchBg, bg_url_truthy, if_true]
  cases hg : w.get (pyRstripSlash url ++ "/" ++ "apps/theming/image/background") with
  | error e => exact ⟨_, rfl⟩
  | ok resp =>
    dsimp only
    cases hw : w.write (pyJoin tmp_dir "site_bg.jpg") resp.content with
    | error e => exact ⟨_, rfl⟩
    | ok u => exact ⟨_, rfl⟩

/-- `fetchLogo` only extends the trace it is given. -/
theorem fetchLogo_trace_ext (w : Web) (url tmp_dir config_ncUrl : String) (soup : Soup)
    (tr : List Effect) :
    ∃ t, (fetchLogo w url tmp_dir config_ncUrl soup tr).trace = tr ++ t := by
  simp only [fetchLogo, logo_url_truthy, if_true]
  cases hg : w.get (pyRstripSlash url ++ "/" ++ "apps/theming/image/logoheader") with
  | error e => exact ⟨_, rfl⟩
  | ok resp =>
    dsimp only
    cases hw : w.write (pyJoin tmp_dir "site_logo.jpg") resp.content with
    | error e => exact ⟨_, rfl⟩
    | ok u =>
      dsimp only
      obtain ⟨t, ht⟩ := fetchBg_trace_ext w url tmp_dir config_ncUrl soup
        (some (pyJoin tmp_dir "site_logo.jpg"))
        (tr ++ [.httpGet (pyRstripSlash url ++ "/" ++ "apps/theming/image/logoheader") 10,
                .fileWrite (pyJoin tmp_dir "site_logo.jpg") resp.content])
      exact ⟨_, by rw [ht, List.append_assoc]⟩

/-- The first I/O action of every fetch run is the GET of the normalised URL. -/
theorem fetch_trace_head (w : Web) (config_ncUrl tmp_dir : String) :
    (fetch_logo_and_site_name w config_ncUrl tmp_dir).trace.head? =
      some (Effect.httpGet (normalizeUrl config_ncUrl) 10) := by
  simp only [fetch_logo_and_site_name]
  cases hget : w.get (normalizeUrl config_ncUrl) with
  | error e => rfl
  | ok resp =>
    dsimp only
    cases hparse : w.parse resp.text with
    | error e => rfl
    | ok soup =>
      dsimp only
      obtain ⟨t, ht⟩ := fetchLogo_trace_ext w (normalizeUrl config_ncUrl) tmp_dir
        config_ncUrl soup [.httpGet (normalizeUrl config_ncUrl) 10]
      rw [ht]
      rfl

/-! ## Concrete environments used by witnesses -/

/-- A host that is down: every network / parse / write call raises. -/
def webDown : Web :=
  { get := fun _ => .error (.exn "connection error"),
    parse := fun _ => .error (.exn "parse error"),
    write := fun _ _ => .error (.exn "io error") }

/-- The tag returned by a footer query on the healthy test site. -/
def footerTag : Tag := { text := " Example Cloud " }

/-- A parsed page whose footer link is present. -/
def soupWithFooter : Soup := { selectFooter := some footerTag }

/-- A healthy host: every call succeeds, the footer link exists. -/
def webUp : Web :=
  { get := fun _ => .ok { text := "<html>", content := "bytes" },
    parse := fun _ => .ok soupWithFooter,
    write := fun _ _ => .ok () }

/-! ## Claim C1 -/

/-- C1: whenever the `try` body of `fetch_logo_and_site_name` raises (any
exception during the fetch/parse sequence), the function returns exactly
`(None, None, config_ncUrl)` with the raw configured host string. -/
theorem fetch_logo_and_site_name_degrades_on_exception
    (w : Web) (config_ncUrl tmp_dir : String)
    (h : (fetch_logo_and_site_name w config_ncUrl tmp_dir).raised = true) :
    (fetch_logo_and_site_name w config_ncUrl tmp_dir).result =
      (none, none, config_ncUrl) := by
  rcases fetch_cases w config_ncUrl tmp_dir with ⟨_, h2⟩ | ⟨resp, soup, tr, _, _, hf⟩
  · exact h2
  · rw [hf] at h
    simp [fetchFinish] at h

/-- Witness for C1 at a concrete unreachable host. -/
theorem fetch_logo_and_site_name_degrades_on_exception_witness :
    (fetch_logo_and_site_name webDown "cloud.example.com" "tmp").raised = true ∧
    (fetch_logo_and_site_name webDown "cloud.example.com" "tmp").result =
      (none, none, "cloud.example.com") :=
  ⟨rfl, fetch_logo_and_site_name_degrades_on_exception webDown "cloud.example.com" "tmp" rfl⟩

/-! ## Claim C5 -/

/-- C5: `generate_qr_code` writes exactly one file, at
`os.path.join(output_dir, filename + ".jpg")`, and returns that very path;
the written image encodes the payload black-on-white at error-correction
level L, box size 10, border 4. -/
theorem generate_qr_code_path (data output_dir filename : String) :
    (generate_qr_code data output_dir filename).2 =
      pyJoin output_dir (filename ++ ".jpg") ∧
    (generate_qr_code data output_dir filename).1.map Prod.fst =
      [(generate_qr_code data output_dir filename).2] ∧
    (generate_qr_code data output_dir filename).1.map Prod.snd =
      [{ data := data,
         params := { version := 1, errorCorrection := "ERROR_CORRECT_L",
                     boxSize := 10, border := 4 },
         fillColor := "black", backColor := "white" }] :=
  ⟨rfl, rfl, rfl⟩

/-! ## Claim C6 (corrected) -/

/-- The spec's notion for C6, following its words: a host string "has a
scheme" when it contains the URL scheme separator `://`. -/
def specHasScheme (s : String) : Bool :=
  s.data.tails.any fun t => charsStartWith t "://".data

/-- Counterexample to C6 as stated: `"ftp://files.example.com"` already has
a scheme, yet the URL actually fetched is not the unchanged host string but
`"https://ftp://files.example.com"`. -/
theorem fetch_url_scheme_counterexample :
    specHasScheme "ftp://files.example.com" = true ∧
    (fetch_logo_and_site_name webDown "ftp://files.example.com" "tmp").trace =
      [Effect.httpGet "https://ftp://files.example.com" 10] ∧
    ("https://ftp://files.example.com" : String) ≠ "ftp://files.example.com" :=
  ⟨by decide, rfl, by decide⟩

/-- C6 amended: the host string is prefixed with `https://` exactly when it
does not start with `"http"` (rather than when it lacks a scheme), is left
unchanged when it does start with `"http"`, and the first GET issued is to
that normalised URL. -/
theorem fetch_url_normalization (w : Web) (config_ncUrl tmp_dir : String) :
    (fetch_logo_and_site_name w config_ncUrl tmp_dir).trace.head? =
      some (Effect.httpGet (normalizeUrl config_ncUrl) 10) ∧
    (pyStartsWith config_ncUrl "http" = true → normalizeUrl config_ncUrl = config_ncUrl) ∧
    (pyStartsWith config_ncUrl "http" = false →
      normalizeUrl config_ncUrl = "https://" ++ config_ncUrl) := by
  refine ⟨fetch_trace_head w config_ncUrl tmp_dir, ?_, ?_⟩
  · intro h; simp [normalizeUrl, h]
  · intro h; simp [normalizeUrl, h]

/-- Witness for the amended C6 at concrete hosts with and without the
`"http"` prefix. -/
theorem fetch_url_normalization_witness :
    (fetch_logo_and_site_name webDown "example.com" "tmp").trace.head? =
      some (Effect.httpGet (normalizeUrl "example.com") 10) ∧
    normalizeUrl "http://example.com" = "http://example.com" ∧
    normalizeUrl "example.com" = "https://" ++ "example.com" :=
  ⟨(fetch_url_normalization webDown "example.com" "tmp").1,
   (fetch_url_normalization webDown "http://example.com" "tmp").2.1 rfl,
   (fetch_url_normalization webDown "example.com" "tmp").2.2 rfl⟩

/-! ## Claim C7 -/

/-- C7: on a run whose `try` body does not raise, when the parsed root page
has a footer link the returned site name is that link's text stripped of
surrounding whitespace, and when it has none the returned site name is the
raw configured host string. -/
theorem fetch_site_name_from_footer (w : Web) (config_ncUrl tmp_dir : String)
    (resp : HttpResponse) (soup : Soup)
    (hget : w.get (normalizeUrl config_ncUrl) = .ok resp)
    (hparse : w.parse resp.text = .ok soup)
    (h : (fetch_logo_and_site_name w config_ncUrl tmp_dir).raised = false) :
    (∀ a, soup.selectFooter = some a →
        (fetch_logo_and_site_name w config_ncUrl tmp_dir).result.2.2 = pyStrip a.text) ∧
    (soup.selectFooter = none →
        (fetch_logo_and_site_name w config_ncUrl tmp_dir).result.2.2 = config_ncUrl) := by
  rcases fetch_cases w config_ncUrl tmp_dir with ⟨h1, _⟩ | ⟨resp', soup', tr, hget', hparse', hf⟩
  · rw [h] at h1
    simp at h1
  · rw [hget] at hget'
    injection hget' with he
    subst he
    rw [hparse] at hparse'
    injection hparse' with hs
    subst hs
    rw [hf]
    constructor
    · intro a ha
      simp [fetchFinish, siteNameOf, ha]
    · intro ha
      simp [fetchFinish, siteNameOf, ha]

/-- Witness for C7: a healthy host whose footer link text is
`" Example Cloud "`; the returned site name is the stripped `"Example Cloud"`. -/
theorem fetch_site_name_from_footer_witness :
    webUp.get (normalizeUrl "example.com") = .ok { text := "<html>", content := "bytes" } ∧
    webUp.parse "<html>" = .ok soupWithFooter ∧
    (fetch_logo_and_site_name webUp "example.com" "tmp").raised = false ∧
    soupWithFooter.selectFooter = some footerTag ∧
    (fetch_logo_and_site_name webUp "example.com" "tmp").result.2.2 = "Example Cloud" := by
  refine ⟨rfl, rfl, rfl, rfl, ?_⟩
  have h := (fetch_site_name_from_footer webUp "example.com" "tmp"
    { text := "<html>", content := "bytes" } soupWithFooter rfl rfl rfl).1 footerTag rfl
  rw [h]
  decide

/-! ## Claim C9 -/

/-- C9: on every run whose `try` body does not raise, the returned logo and
background paths are the fixed `join(tmp_dir, "site_logo.jpg")` and
`join(tmp_dir, "site_bg.jpg")` — never `None` — because the constructed
theming URLs are always non-empty (truthy) strings, making the `None`
branches unreachable. -/
theorem fetch_success_fixed_paths (w : Web) (config_ncUrl tmp_dir : String)
    (h : (fetch_logo_and_site_name w config_ncUrl tmp_dir).raised = false) :
    (fetch_logo_and_site_name w config_ncUrl tmp_dir).result.1 =
      some (pyJoin tmp_dir "site_logo.jpg") ∧
    (fetch_logo_and_site_name w config_ncUrl tmp_dir).result.2.1 =
      some (pyJoin tmp_dir "site_bg.jpg") ∧
    pyTruthy (pyRstripSlash (normalizeUrl config_ncUrl) ++ "/" ++
      "apps/theming/image/logoheader") = true ∧
    pyTruthy (pyRstripSlash (normalizeUrl config_ncUrl) ++ "/" ++
      "apps/theming/image/background") = true := by
  rcases fetch_cases w config_ncUrl tmp_dir with ⟨h1, _⟩ | ⟨resp, soup, tr, _, _, hf⟩
  · rw [h] at h1
    simp at h1
  · rw [hf]
    exact ⟨rfl, rfl, logo_url_truthy _, bg_url_truthy _⟩

/-- Witness for C9 at a healthy concrete host. -/
theorem fetch_success_fixed_paths_witness :
    (fetch_logo_and_site_name webUp "example.com" "tmp").raised = false ∧
    ((fetch_logo_and_site_name webUp "example.com" "tmp").result.1 =
      some (pyJoin "tmp" "site_logo.jpg") ∧
    (fetch_logo_and_site_name webUp "example.com" "tmp").result.2.1 =
      some (pyJoin "tmp" "site_bg.jpg") ∧
    pyTruthy (pyRstripSlash (normalizeUrl "example.com") ++ "/" ++
      "apps/theming/image/logoheader") = true ∧
    pyTruthy (pyRstripSlash (normalizeUrl "example.com") ++ "/" ++
      "apps/theming/image/background") = true) :=
  ⟨rfl, fetch_success_fixed_paths webUp "example.com" "tmp" rfl⟩

/-! ## Helper lemmas about the PDF builders -/

/-- The greeting block contains no page break. -/
theorem greeting_no_pageBreak (dn un pw : String) (lang : Lang)
    (sn : Option String) (cfg : String) :
    Flowable.pageBreak ∉ greetingFlowables dn un pw lang sn cfg := by
  simp [greetingFlowables]

/-- The greeting block contains no images. -/
theorem greeting_imagePaths (dn un pw : String) (lang : Lang)
    (sn : Option String) (cfg : String) :
    imagePaths (greetingFlowables dn un pw lang sn cfg) = [] := by
  simp [greetingFlowables, imagePaths]

/-- The greeting block contains no clickable images. -/
theorem greeting_clickables (dn un pw : String) (lang : Lang)
    (sn : Option String) (cfg : String) :
    clickableCells (greetingFlowables dn un pw lang sn cfg) = [] := by
  simp [greetingFlowables, clickableCells]

/-- The only tables of the greeting block are the two boxed single-cell
credential tables, username first, each holding the raw string. -/
theorem greeting_strTables (dn un pw : String) (lang : Lang)
    (sn : Option String) (cfg : String) :
    strTables (greetingFlowables dn un pw lang sn cfg) =
      [([[Cell.str un]], credTableStyle), ([[Cell.str pw]], credTableStyle)] := by
  simp [greetingFlowables, strTables]

/-- The app-store block contains no page break. -/
theorem buttons_no_pageBreak (fs : Fs) (lang : Lang) :
    Flowable.pageBreak ∉ add_app_store_buttons fs lang := by
  unfold add_app_store_buttons
  by_cases h1 : fs.pathExists (googlePlayImg fs) <;>
    by_cases h2 : fs.pathExists (appStoreImg fs) <;>
      simp [h1, h2]

/-- The app-store block contains no plain images. -/
theorem buttons_imagePaths (fs : Fs) (lang : Lang) :
    imagePaths (add_app_store_buttons fs lang) = [] := by
  unfold add_app_store_buttons
  by_cases h1 : fs.pathExists (googlePlayImg fs) <;>
    by_cases h2 : fs.pathExists (appStoreImg fs) <;>
      simp [h1, h2, imagePaths]

/-- When neither badge file exists the app-store block has no clickable
images (indeed no table at all). -/
theorem buttons_clickables_empty (fs : Fs) (lang : Lang)
    (h1 : fs.pathExists (googlePlayImg fs) = false)
    (h2 : fs.pathExists (appStoreImg fs) = false) :
    clickableCells (add_app_store_buttons fs lang) = [] := by
  unfold add_app_store_buttons
  simp [h1, h2, clickableCells]

/-- The QR block contains no page break. -/
theorem qr_no_pageBreak (fs : Fs) (qr : Option String) (lang : Lang) :
    Flowable.pageBreak ∉ qrFlowables fs qr lang := by
  unfold qrFlowables
  cases qr with
  | none => simp
  | some p =>
    by_cases h : fs.pathExists p <;> simp [h]

/-- The QR block contains no tables, hence no clickable images. -/
theorem qr_clickables (fs : Fs) (qr : Option String) (lang : Lang) :
    clickableCells (qrFlowables fs qr lang) = [] := by
  unfold qrFlowables
  cases qr with
  | none => simp [clickableCells]
  | some p =>
    by_cases h : fs.pathExists p <;> simp [h, clickableCells]

/-- When the QR path is absent or the file does not exist, the QR block is
empty. -/
theorem qr_missing_empty (fs : Fs) (qr : Option String) (lang : Lang)
    (h : match qr with
         | none => True
         | some p => fs.pathExists p = false) :
    qrFlowables fs qr lang = [] := by
  unfold qrFlowables
  cases qr with
  | none => rfl
  | some p => simp [h]

/-- Successful `add_greeting_and_password` output is a greeting block for
the record's username and password. -/
theorem add_greeting_ok_shape (u : UserData) (lang : Lang) (sn : Option String)
    (cfg : String) (l : List Flowable)
    (h : add_greeting_and_password u lang sn cfg = .ok l) :
    ∃ dn un pw, u.username = some un ∧ u.password = some pw ∧
      l = greetingFlowables dn un pw lang sn cfg := by
  unfold add_greeting_and_password at h
  dsimp only at h
  by_cases hd : pyStrip (u.displayname.getD "") = ""
  · rw [if_pos hd] at h
    cases hu : u.username with
    | none => rw [hu] at h; cases h
    | some un =>
      rw [hu] at h
      dsimp only at h
      cases hp : u.password with
      | none => rw [hp] at h; cases h
      | some pw =>
        rw [hp] at h
        dsimp only at h
        injection h with h
        exact ⟨un, un, pw, rfl, rfl, h.symm⟩
  · rw [if_neg hd] at h
    dsimp only at h
    cases hu : u.username with
    | none => rw [hu] at h; cases h
    | some un =>
      rw [hu] at h
      dsimp only at h
      cases hp : u.password with
      | none => rw [hp] at h; cases h
      | some pw =>
        rw [hp] at h
        dsimp only at h
        injection h with h
        exact ⟨pyStrip (u.displayname.getD ""), un, pw, rfl, rfl, h.symm⟩

/-- When username and password are present, `add_greeting_and_password`
succeeds with a greeting block for them. -/
theorem add_greeting_ok_of (u : UserData) (lang : Lang) (sn : Option String)
    (cfg : String) (un pw : String)
    (hu : u.username = some un) (hp : u.password = some pw) :
    ∃ dn, add_greeting_and_password u lang sn cfg =
      .ok (greetingFlowables dn un pw lang sn cfg) := by
  unfold add_greeting_and_password
  dsimp only
  by_cases hd : pyStrip (u.displayname.getD "") = ""
  · rw [if_pos hd, hu, hp]
    exact ⟨un, rfl⟩
  · rw [if_neg hd, hu, hp]
    exact ⟨pyStrip (u.displayname.getD ""), rfl⟩

/-- When username or password is absent, `add_greeting_and_password`
raises a `KeyError`. -/
theorem add_greeting_error (u : UserData) (lang : Lang) (sn : Option String)
    (cfg : String) (h : u.username = none ∨ u.password = none) :
    ∃ e, add_greeting_and_password u lang sn cfg = .error e := by
  unfold add_greeting_and_password
  dsimp only
  rcases h with h | h
  · rw [h]
    by_cases hd : pyStrip (u.displayname.getD "") = ""
    · rw [if_pos hd]
      exact ⟨_, rfl⟩
    · rw [if_neg hd]
      exact ⟨_, rfl⟩
  · rw [h]
    by_cases hd : pyStrip (u.displayname.getD "") = ""
    · rw [if_pos hd]
      cases hu : u.username with
      | none => exact ⟨_, rfl⟩
      | some un => exact ⟨_, rfl⟩
    · rw [if_neg hd]
      cases hu : u.username with
      | none => exact ⟨_, rfl⟩
      | some un => exact ⟨_, rfl⟩

/-- Successful section output is logo + greeting + QR block + buttons. -/
theorem section_ok_shape (fs : Fs) (u : UserData) (qr : Option String)
    (cfg : String) (lang : Lang) (im_site : Flowable) (sn : Option String)
    (sec : List Flowable)
    (h : _build_single_user_section fs u qr cfg lang im_site sn = .ok sec) :
    ∃ dn un pw, u.username = some un ∧ u.password = some pw ∧
      sec = [im_site, .spacer 1 8] ++ greetingFlowables dn un pw lang sn cfg ++
        qrFlowables fs qr lang ++ [.spacer 1 24] ++ add_app_store_buttons fs lang := by
  unfold _build_single_user_section at h
  cases hg : add_greeting_and_password u lang sn cfg with
  | error e => rw [hg] at h; cases h
  | ok greeting =>
    rw [hg] at h
    dsimp only at h
    injection h with h
    obtain ⟨dn, un, pw, hu, hp, hgr⟩ := add_greeting_ok_shape u lang sn cfg greeting hg
    exact ⟨dn, un, pw, hu, hp, by rw [← h, hgr]⟩

/-- When username and password are present the section builder succeeds. -/
theorem section_ok_of (fs : Fs) (u : UserData) (qr : Option String)
    (cfg : String) (lang : Lang) (im_site : Flowable) (sn : Option String)
    (un pw : String) (hu : u.username = some un) (hp : u.password = some pw) :
    ∃ dn, _build_single_user_section fs u qr cfg lang im_site sn =
      .ok ([im_site, .spacer 1 8] ++ greetingFlowables dn un pw lang sn cfg ++
        qrFlowables fs qr lang ++ [.spacer 1 24] ++ add_app_store_buttons fs lang) := by
  obtain ⟨dn, hg⟩ := add_greeting_ok_of u lang sn cfg un pw hu hp
  refine ⟨dn, ?_⟩
  unfold _build_single_user_section
  rw [hg]

/-- When username or password is absent the section builder raises. -/
theorem section_error (fs : Fs) (u : UserData) (qr : Option String)
    (cfg : String) (lang : Lang) (im_site : Flowable) (sn : Option String)
    (h : u.username = none ∨ u.password = none) :
    ∃ e, _build_single_user_section fs u qr cfg lang im_site sn = .error e := by
  obtain ⟨e, he⟩ := add_greeting_error u lang sn cfg h
  refine ⟨e, ?_⟩
  unfold _build_single_user_section
  rw [he]

/-- A successful section contains no page break (its leading logo flowable
being an image). -/
theorem section_no_pageBreak (fs : Fs) (u : UserData) (qr : Option String)
    (cfg : String) (lang : Lang) (im_site : Flowable) (sn : Option String)
    (sec : List Flowable) (him : im_site ≠ Flowable.pageBreak)
    (h : _build_single_user_section fs u qr cfg lang im_site sn = .ok sec) :
    Flowable.pageBreak ∉ sec := by
  obtain ⟨dn, un, pw, hu, hp, hsec⟩ := section_ok_shape fs u qr cfg lang im_site sn sec h
  subst hsec
  intro hmem
  rcases List.mem_append.mp hmem with h5 | h5
  · rcases List.mem_append.mp h5 with h4 | h4
    · rcases List.mem_append.mp h4 with h3 | h3
      · rcases List.mem_append.mp h3 with h2 | h2
        · rcases List.mem_cons.mp h2 with h1 | h1
          · exact him h1.symm
          · rcases List.mem_cons.mp h1 with h0 | h0
            · exact Flowable.noConfusion h0
            · exact absurd h0 (List.not_mem_nil _)
        · exact greeting_no_pageBreak dn un pw lang sn cfg h2
      · exact qr_no_pageBreak fs qr lang h3
    · rcases List.mem_cons.mp h4 with h1 | h1
      · exact Flowable.noConfusion h1
      · exact absurd h1 (List.not_mem_nil _)
  · exact buttons_no_pageBreak fs lang h5

/-- The logo flowable chosen by `generate_pdf` is never a page break. -/
theorem imSiteOf_ne_pageBreak (fs : Fs) (logo_path : Option String) :
    imSiteOf fs logo_path ≠ Flowable.pageBreak := by
  unfold imSiteOf
  cases logo_path with
  | none => simp [im]
  | some p =>
    by_cases h : fs.pathExists p <;> simp [h, im]

/-- The per-user page blocks of multi-user mode, in order: each user's
section built with that record's own `qr_code_path` key. -/
def sectionsOf (fs : Fs) (cfg : String) (lang : Lang) (im_site : Flowable)
    (sn : Option String) : List UserData → Except PyError (List (List Flowable))
  | [] => .ok []
  | u :: rest =>
    match _build_single_user_section fs u u.qr_code_path cfg lang im_site sn with
    | .error e => .error e
    | .ok sec =>
      match sectionsOf fs cfg lang im_site sn rest with
      | .error e => .error e
      | .ok tail => .ok (sec :: tail)

/-- A successful multi-user story is the concatenation of the per-user
blocks, each followed by one `PageBreak()`. -/
theorem buildMultiStory_ok_shape (fs : Fs) (cfg : String) (lang : Lang)
    (im_site : Flowable) (sn : Option String) :
    ∀ (users : List UserData) (story : List Flowable),
      buildMultiStory fs cfg lang im_site sn users = .ok story →
      ∃ secs, sectionsOf fs cfg lang im_site sn users = .ok secs ∧
        secs.length = users.length ∧
        (∀ s ∈ secs, ∃ u ∈ users,
          _build_single_user_section fs u u.qr_code_path cfg lang im_site sn = .ok s) ∧
        story = (secs.map (· ++ [Flowable.pageBreak])).flatten
  | [], story, h => by
    injection h with h
    exact ⟨[], rfl, rfl, by simp, by simp [← h]⟩
  | u :: rest, story, h => by
    unfold buildMultiStory at h
    cases hsec : _build_single_user_section fs u u.qr_code_path cfg lang im_site sn with
    | error e => rw [hsec] at h; cases h
    | ok sec =>
      rw [hsec] at h
      dsimp only at h
      cases htail : buildMultiStory fs cfg lang im_site sn rest with
      | error e => rw [htail] at h; cases h
      | ok tail =>
        rw [htail] at h
        dsimp only at h
        injection h with h
        obtain ⟨secs, hs, hlen, hmem, hjoin⟩ :=
          buildMultiStory_ok_shape fs cfg lang im_site sn rest tail htail
        refine ⟨sec :: secs, ?_, by simp [hlen], ?_, ?_⟩
        · unfold sectionsOf
          rw [hsec, hs]
        · intro s hsmem
          rcases List.mem_cons.mp hsmem with hs1 | hs2
          · exact ⟨u, List.mem_cons_self u rest, by rw [hs1]; exact hsec⟩
          · obtain ⟨v, hv, hvs⟩ := hmem s hs2
            exact ⟨v, List.mem_cons_of_mem u hv, hvs⟩
        · rw [← h, hjoin]
          simp [List.flatten]

/-- When some user of the list lacks a username or password, the multi-user
loop raises. -/
theorem buildMultiStory_error (fs : Fs) (cfg : String) (lang : Lang)
    (im_site : Flowable) (sn : Option String) :
    ∀ (users : List UserData) (u : UserData), u ∈ users →
      u.username = none ∨ u.password = none →
      ∃ e, buildMultiStory fs cfg lang im_site sn users = .error e
  | [], u, hmem, _ => absurd hmem (List.not_mem_nil u)
  | v :: rest, u, hmem, h => by
    unfold buildMultiStory
    cases hsec : _build_single_user_section fs v v.qr_code_path cfg lang im_site sn with
    | error e => exact ⟨e, rfl⟩
    | ok sec =>
      dsimp only
      rcases List.mem_cons.mp hmem with hv | hrest
      · obtain ⟨e, he⟩ := section_error fs v v.qr_code_path cfg lang im_site sn (hv ▸ h)
        rw [he] at hsec
        cases hsec
      · obtain ⟨e, he⟩ := buildMultiStory_error fs cfg lang im_site sn rest u hrest h
        rw [he]
        exact ⟨e, rfl⟩

/-- `imagePaths` distributes over append. -/
theorem imagePaths_append (a b : List Flowable) :
    imagePaths (a ++ b) = imagePaths a ++ imagePaths b :=
  List.filterMap_append a b _

/-- `clickableCells` distributes over append. -/
theorem clickableCells_append (a b : List Flowable) :
    clickableCells (a ++ b) = clickableCells a ++ clickableCells b :=
  List.flatMap_append a b _

/-- An optional path that is absent or names a non-existent file. -/
def fileMissing (fs : Fs) (p : Option String) : Prop :=
  match p with
  | none => True
  | some q => fs.pathExists q = false

/-- When the logo path is missing the default bundled logo is used. -/
theorem imSiteOf_missing (fs : Fs) (logo_path : Option String)
    (h : fileMissing fs logo_path) : imSiteOf fs logo_path = im := by
  unfold imSiteOf
  cases logo_path with
  | none => rfl
  | some p => simp [fileMissing] at h; simp [h]

/-- Single-user `generate_pdf` is the section builder on the record's own
fields, wrapped in the built document. -/
theorem generate_pdf_single_eq (fs : Fs) (ud : UserArg) (qr : Option String)
    (out cfg : String) (lang : Lang) (logo bg : Option String)
    (sn : Option String) :
    generate_pdf fs ud qr out cfg lang false logo bg sn =
      match _build_single_user_section fs ud.toUserData qr cfg lang
          (imSiteOf fs logo) sn with
      | .error e => .error e
      | .ok story =>
        .ok { output_filepath := out, font := customFont fs,
              background := bgImageOf fs bg, story := story } := by
  unfold generate_pdf
  dsimp only
  rfl

/-- Multi-user `generate_pdf` is the per-user loop on `user_data["users"]`,
wrapped in the built document. -/
theorem generate_pdf_multi_eq (fs : Fs) (ud : UserArg) (qr : Option String)
    (out cfg : String) (lang : Lang) (logo bg : Option String)
    (sn : Option String) (users : List UserData) (husers : ud.users = some users) :
    generate_pdf fs ud qr out cfg lang true logo bg sn =
      match buildMultiStory fs cfg lang (imSiteOf fs logo) sn users with
      | .error e => .error e
      | .ok story =>
        .ok { output_filepath := out, font := customFont fs,
              background := bgImageOf fs bg, story := story } := by
  unfold generate_pdf
  dsimp only
  rw [husers]
  rfl

/-- The multi-user loop equals the per-user blocks list, each block
suffixed by one page break, concatenated. -/
theorem buildMulti_sections (fs : Fs) (cfg : String) (lang : Lang)
    (im_site : Flowable) (sn : Option String) :
    ∀ users : List UserData,
      buildMultiStory fs cfg lang im_site sn users =
        match sectionsOf fs cfg lang im_site sn users with
        | .error e => .error e
        | .ok secs => .ok ((secs.map (· ++ [Flowable.pageBreak])).flatten)
  | [] => rfl
  | u :: rest => by
    have ih := buildMulti_sections fs cfg lang im_site sn rest
    unfold buildMultiStory sectionsOf
    cases hsec : _build_single_user_section fs u u.qr_code_path cfg lang im_site sn with
    | error e => rfl
    | ok sec =>
      dsimp only
      rw [ih]
      cases hrest : sectionsOf fs cfg lang im_site sn rest with
      | error e => rfl
      | ok secs =>
        dsimp only
        rw [List.map_cons, List.flatten_cons]

/-- Page-break count of a story built from page-break-free blocks, one
break per block. -/
theorem count_pageBreaks (secs : List (List Flowable))
    (h : ∀ s ∈ secs, Flowable.pageBreak ∉ s) :
    ((secs.map (· ++ [Flowable.pageBreak])).flatten).count Flowable.pageBreak =
      secs.length := by
  induction secs with
  | nil => rfl
  | cons s rest ih =>
    rw [List.map_cons, List.flatten_cons, List.count_append, List.count_append]
    rw [ih fun t ht => h t (List.mem_cons_of_mem s ht)]
    rw [List.count_eq_zero.mpr (h s (List.mem_cons_self s rest))]
    simp [List.count_cons]
    omega

/-- With the logo, QR and both badge files missing, a successful section
renders exactly one image — the default bundled logo — and no clickable
badge. -/
theorem section_assets (fs : Fs) (u : UserData) (qr : Option String)
    (cfg : String) (lang : Lang) (logo : Option String) (sn : Option String)
    (sec : List Flowable)
    (hlogo : fileMissing fs logo) (hqr : fileMissing fs qr)
    (hgp : fs.pathExists (googlePlayImg fs) = false)
    (hap : fs.pathExists (appStoreImg fs) = false)
    (h : _build_single_user_section fs u qr cfg lang (imSiteOf fs logo) sn = .ok sec) :
    imagePaths sec = [nclogo] ∧ clickableCells sec = [] := by
  obtain ⟨dn, un, pw, hu, hp, hsec⟩ :=
    section_ok_shape fs u qr cfg lang (imSiteOf fs logo) sn sec h
  subst hsec
  rw [imSiteOf_missing fs logo hlogo]
  constructor
  · rw [imagePaths_append, imagePaths_append, imagePaths_append, imagePaths_append]
    rw [greeting_imagePaths, buttons_imagePaths, qr_missing_empty fs qr lang hqr]
    simp [imagePaths, im]
  · rw [clickableCells_append, clickableCells_append, clickableCells_append,
      clickableCells_append]
    rw [greeting_clickables, buttons_clickables_empty fs lang hgp hap,
      qr_missing_empty fs qr lang hqr]
    simp [clickableCells, im]

/-- With all optional assets missing, the multi-user loop succeeds on a
list of complete records and renders one default logo per user and no
clickable badges. -/
theorem buildMulti_assets (fs : Fs) (cfg : String) (lang : Lang)
    (logo : Option String) (sn : Option String)
    (hlogo : fileMissing fs logo)
    (hgp : fs.pathExists (googlePlayImg fs) = false)
    (hap : fs.pathExists (appStoreImg fs) = false) :
    ∀ users : List UserData,
      (∀ u ∈ users, u.username.isSome ∧ u.password.isSome ∧
        fileMissing fs u.qr_code_path) →
      ∃ story, buildMultiStory fs cfg lang (imSiteOf fs logo) sn users = .ok story ∧
        imagePaths story = List.replicate users.length nclogo ∧
        clickableCells story = []
  | [], _ => ⟨[], rfl, rfl, rfl⟩
  | u :: rest, hall => by
    obtain ⟨hus, hps, hqru⟩ := hall u (List.mem_cons_self u rest)
    obtain ⟨un, hun⟩ := Option.isSome_iff_exists.mp hus
    obtain ⟨pw, hpw⟩ := Option.isSome_iff_exists.mp hps
    obtain ⟨dn, hsec⟩ := section_ok_of fs u u.qr_code_path cfg lang
      (imSiteOf fs logo) sn un pw hun hpw
    obtain ⟨tail, htail, htimg, htclick⟩ := buildMulti_assets fs cfg lang logo sn
      hlogo hgp hap rest (fun v hv => hall v (List.mem_cons_of_mem u hv))
    obtain ⟨himg, hclick⟩ := section_assets fs u u.qr_code_path cfg lang logo sn _
      hlogo hqru hgp hap hsec
    refine ⟨([imSiteOf fs logo, Flowable.spacer 1 8] ++
        greetingFlowables dn un pw lang sn cfg ++
        qrFlowables fs u.qr_code_path lang ++ [Flowable.spacer 1 24] ++
        add_app_store_buttons fs lang) ++ [Flowable.pageBreak] ++ tail, ?_, ?_, ?_⟩
    · unfold buildMultiStory
      rw [hsec]
      dsimp only
      rw [htail]
    · rw [imagePaths_append, imagePaths_append, himg, htimg]
      simp [imagePaths, List.replicate_succ]
    · rw [clickableCells_append, clickableCells_append, hclick, htclick]
      simp [clickableCells]

/-! ## Observation helpers and concrete witness data -/

/-- The story of a built document, `none` when the build raised. -/
def pdfStory (r : Except PyError PdfDoc) : Option (List Flowable) :=
  match r with
  | .ok d => some d.story
  | .error _ => none

/-- Image paths and clickable cells of a built document's story. -/
def storyAssets (r : Except PyError PdfDoc) :
    Option (List String × List (String × String)) :=
  match r with
  | .ok d => some (imagePaths d.story, clickableCells d.story)
  | .error _ => none

/-- The tables of a successful greeting block. -/
def greetingTables (r : Except PyError (List Flowable)) :
    Option (List (List (List Cell) × List String)) :=
  match r with
  | .ok l => some (strTables l)
  | .error _ => none

/-- Whether `generate_pdf` raised. -/
def pdfRaises (r : Except PyError PdfDoc) : Bool :=
  match r with
  | .error _ => true
  | .ok _ => false

/-- Per-user block lists joined with one page break after each block. -/
def pagesJoin (r : Except PyError (List (List Flowable))) :
    Option (List Flowable) :=
  match r with
  | .ok secs => some ((secs.map (· ++ [Flowable.pageBreak])).flatten)
  | .error _ => none

/-- The story of a successful section build. -/
def sectionStory (r : Except PyError (List Flowable)) : Option (List Flowable) :=
  match r with
  | .ok l => some l
  | .error _ => none

/-- A successful document, or a dummy when the build raised. -/
def pdfDocOrDummy (r : Except PyError PdfDoc) : PdfDoc :=
  match r with
  | .ok d => d
  | .error _ => { output_filepath := "", font := "", background := none, story := [] }

/-- Successful per-user blocks, or `[]` when the loop raised. -/
def secsOrDummy (r : Except PyError (List (List Flowable))) :
    List (List Flowable) :=
  match r with
  | .ok secs => secs
  | .error _ => []

/-- A filesystem on which no optional asset file exists. -/
def fs0 : Fs :=
  { pathExists := fun _ => false, fontRegisterOk := true, moduleDir := "modules" }

/-- A filesystem with a mixed asset configuration: the QR image file
`tmp/qr.jpg` and the Google Play badge exist; the App Store badge and any
logo file do not. -/
def fs1 : Fs :=
  { pathExists := fun p =>
      p == "tmp/qr.jpg" || p == "modules/../assets/google_play.jpg",
    fontRegisterOk := true, moduleDir := "modules" }

/-- An empty translation dict: every key falls back to the default text. -/
def lang0 : Lang := fun _ => none

/-- A complete user record. -/
def user0 : UserData :=
  { username := some "alice", password := some "secret",
    displayname := none, qr_code_path := none }

/-- A single-user `user_data` dict for `user0`. -/
def singleArg0 : UserArg :=
  { username := some "alice", password := some "secret",
    displayname := none, qr_code_path := none, users := none }

/-- A multi-user `user_data` dict with the one complete record. -/
def multiArg0 : UserArg :=
  { username := none, password := none, displayname := none,
    qr_code_path := none, users := some [user0] }

/-- A record with no `username` key. -/
def badUser0 : UserData :=
  { username := none, password := some "pw",
    displayname := some "Display", qr_code_path := none }

/-- A single-user dict with no `username` key. -/
def badSingleArg0 : UserArg :=
  { username := none, password := some "secret",
    displayname := none, qr_code_path := none, users := none }

/-- A multi-user dict whose second record has no `username` key. -/
def badMultiArg0 : UserArg :=
  { username := none, password := none, displayname := none,
    qr_code_path := none, users := some [user0, badUser0] }

/-- A concrete single-user run with every optional asset missing. -/
def singleRun0 : Except PyError PdfDoc :=
  generate_pdf fs0 singleArg0 none "out.pdf" "cloud.example.com" lang0 false
    none none (some "Example Cloud")

/-- A concrete one-user multi-user run with every optional asset missing. -/
def multiRun0 : Except PyError PdfDoc :=
  generate_pdf fs0 multiArg0 none "out.pdf" "cloud.example.com" lang0 true
    none none (some "Example Cloud")

/-- The document of `singleRun0`. -/
def d0s : PdfDoc := pdfDocOrDummy singleRun0

/-- The document of `multiRun0`. -/
def d0m : PdfDoc := pdfDocOrDummy multiRun0

/-- The per-user blocks of `multiRun0`. -/
def secs0 : List (List Flowable) :=
  secsOrDummy (sectionsOf fs0 "cloud.example.com" lang0 (imSiteOf fs0 none)
    (some "Example Cloud") [user0])

/-! ## Claim C2 (corrected) -/

/-- Counterexample to C2 as stated: in multi-user mode the loop appends a
`PageBreak()` after every user's block, including the last one — here a
one-user run whose story ends with a page break. -/
theorem generate_pdf_trailing_pageBreak_counterexample :
    (pdfStory multiRun0).map List.getLast? = some (some Flowable.pageBreak) := by
  decide

/-- C2 amended: single-user mode emits exactly the one per-user block and
no page break; multi-user mode with N users emits the N per-user blocks,
each followed by one page break — including after the last block. -/
theorem generate_pdf_page_blocks :
    (∀ fs ud qr out cfg lang logo bg sn d,
       generate_pdf fs ud qr out cfg lang false logo bg sn = .ok d →
       _build_single_user_section fs ud.toUserData qr cfg lang
           (imSiteOf fs logo) sn = .ok d.story ∧
       d.story.count Flowable.pageBreak = 0) ∧
    (∀ fs ud qr out cfg lang logo bg sn users secs d,
       ud.users = some users →
       sectionsOf fs cfg lang (imSiteOf fs logo) sn users = .ok secs →
       generate_pdf fs ud qr out cfg lang true logo bg sn = .ok d →
       d.story = (secs.map (· ++ [Flowable.pageBreak])).flatten ∧
       secs.length = users.length ∧
       d.story.count Flowable.pageBreak = users.length) := by
  constructor
  · intro fs ud qr out cfg lang logo bg sn d h
    rw [generate_pdf_single_eq] at h
    cases hsec : _build_single_user_section fs ud.toUserData qr cfg lang
        (imSiteOf fs logo) sn with
    | error e => rw [hsec] at h; cases h
    | ok story =>
      rw [hsec] at h
      dsimp only at h
      injection h with h
      constructor
      · rw [← h]
      · rw [← h]
        exact List.count_eq_zero.mpr
          (section_no_pageBreak fs ud.toUserData qr cfg lang (imSiteOf fs logo)
            sn story (imSiteOf_ne_pageBreak fs logo) hsec)
  · intro fs ud qr out cfg lang logo bg sn users secs d husers hsecs h
    rw [generate_pdf_multi_eq fs ud qr out cfg lang logo bg sn users husers] at h
    cases hbm : buildMultiStory fs cfg lang (imSiteOf fs logo) sn users with
    | error e => rw [hbm] at h; cases h
    | ok story =>
      rw [hbm] at h
      dsimp only at h
      injection h with h
      obtain ⟨secs', hs', hlen, hmem, hjoin⟩ :=
        buildMultiStory_ok_shape fs cfg lang (imSiteOf fs logo) sn users story hbm
      rw [hsecs] at hs'
      injection hs' with hs'
      subst hs'
      have hnopb : ∀ s ∈ secs, Flowable.pageBreak ∉ s := by
        intro s hs
        obtain ⟨u, _, husec⟩ := hmem s hs
        exact section_no_pageBreak fs u u.qr_code_path cfg lang (imSiteOf fs logo)
          sn s (imSiteOf_ne_pageBreak fs logo) husec
      refine ⟨by rw [← h, hjoin], hlen, ?_⟩
      rw [← h, hjoin, count_pageBreaks secs hnopb, hlen]

/-- Witness for the amended C2: the concrete single-user run has one block
and no break; the concrete one-user multi-user run is that user's block
followed by one page break. -/
theorem generate_pdf_page_blocks_witness :
    (generate_pdf fs0 singleArg0 none "out.pdf" "cloud.example.com" lang0 false
        none none (some "Example Cloud") = .ok d0s ∧
      (_build_single_user_section fs0 singleArg0.toUserData none
          "cloud.example.com" lang0 (imSiteOf fs0 none) (some "Example Cloud") =
            .ok d0s.story ∧
        d0s.story.count Flowable.pageBreak = 0)) ∧
    (multiArg0.users = some [user0] ∧
      sectionsOf fs0 "cloud.example.com" lang0 (imSiteOf fs0 none)
        (some "Example Cloud") [user0] = .ok secs0 ∧
      generate_pdf fs0 multiArg0 none "out.pdf" "cloud.example.com" lang0 true
        none none (some "Example Cloud") = .ok d0m ∧
      (d0m.story = (secs0.map (· ++ [Flowable.pageBreak])).flatten ∧
        secs0.length = [user0].length ∧
        d0m.story.count Flowable.pageBreak = [user0].length)) :=
  ⟨⟨rfl, generate_pdf_page_blocks.1 fs0 singleArg0 none "out.pdf"
      "cloud.example.com" lang0 none none (some "Example Cloud") d0s rfl⟩,
   ⟨rfl, rfl, rfl, generate_pdf_page_blocks.2 fs0 multiArg0 none "out.pdf"
      "cloud.example.com" lang0 none none (some "Example Cloud") [user0] secs0
      d0m rfl rfl rfl⟩⟩

/-- The logo flowable chosen by `generate_pdf` is always an image. -/
theorem imSiteOf_is_image (fs : Fs) (logo_path : Option String) :
    ∃ p a b, imSiteOf fs logo_path = Flowable.image p a b := by
  unfold imSiteOf
  cases logo_path with
  | none => exact ⟨nclogo, 150, 106, rfl⟩
  | some p =>
    by_cases h : fs.pathExists p
    · exact ⟨p, 150, 150, by simp [h]⟩
    · exact ⟨nclogo, 150, 106, by simp [h, im]⟩

/-- Exact asset content of any successful section, in any configuration:
its images are the logo slot's image followed by the QR block's images,
and its clickable cells are exactly those of the app-store block. -/
theorem section_assets_eq (fs : Fs) (u : UserData) (qr : Option String)
    (cfg : String) (lang : Lang) (logo : Option String) (sn : Option String)
    (sec : List Flowable)
    (h : _build_single_user_section fs u qr cfg lang (imSiteOf fs logo) sn = .ok sec) :
    imagePaths sec =
      imagePaths [imSiteOf fs logo] ++ imagePaths (qrFlowables fs qr lang) ∧
    clickableCells sec = clickableCells (add_app_store_buttons fs lang) := by
  obtain ⟨dn, un, pw, hu, hp, hsec⟩ :=
    section_ok_shape fs u qr cfg lang (imSiteOf fs logo) sn sec h
  subst hsec
  obtain ⟨p, a, b, hims⟩ := imSiteOf_is_image fs logo
  rw [hims]
  constructor
  · rw [imagePaths_append, imagePaths_append, imagePaths_append, imagePaths_append,
      greeting_imagePaths, buttons_imagePaths]
    simp [imagePaths]
  · rw [clickableCells_append, clickableCells_append, clickableCells_append,
      clickableCells_append, greeting_clickables, qr_clickables]
    simp [clickableCells]

/-- In any asset configuration, the multi-user loop succeeds on a list of
complete records, and its images and clickable cells are exactly the
per-record logo-slot/QR-block images and per-record badge cells. -/
theorem buildMulti_assets_eq (fs : Fs) (cfg : String) (lang : Lang)
    (logo : Option String) (sn : Option String) :
    ∀ users : List UserData,
      (∀ u ∈ users, u.username.isSome ∧ u.password.isSome) →
      ∃ story, buildMultiStory fs cfg lang (imSiteOf fs logo) sn users = .ok story ∧
        imagePaths story =
          (users.map fun u => imagePaths [imSiteOf fs logo] ++
            imagePaths (qrFlowables fs u.qr_code_path lang)).flatten ∧
        clickableCells story =
          (List.replicate users.length
            (clickableCells (add_app_store_buttons fs lang))).flatten
  | [], _ => ⟨[], rfl, rfl, rfl⟩
  | u :: rest, hall => by
    obtain ⟨hus, hps⟩ := hall u (List.mem_cons_self u rest)
    obtain ⟨un, hun⟩ := Option.isSome_iff_exists.mp hus
    obtain ⟨pw, hpw⟩ := Option.isSome_iff_exists.mp hps
    obtain ⟨dn, hsec⟩ := section_ok_of fs u u.qr_code_path cfg lang
      (imSiteOf fs logo) sn un pw hun hpw
    obtain ⟨tail, htail, htimg, htclick⟩ := buildMulti_assets_eq fs cfg lang logo sn
      rest (fun v hv => hall v (List.mem_cons_of_mem u hv))
    obtain ⟨himg, hclick⟩ := section_assets_eq fs u u.qr_code_path cfg lang logo sn
      _ hsec
    refine ⟨([imSiteOf fs logo, Flowable.spacer 1 8] ++
        greetingFlowables dn un pw lang sn cfg ++
        qrFlowables fs u.qr_code_path lang ++ [Flowable.spacer 1 24] ++
        add_app_store_buttons fs lang) ++ [Flowable.pageBreak] ++ tail, ?_, ?_, ?_⟩
    · unfold buildMultiStory
      rw [hsec]
      dsimp only
      rw [htail]
    · rw [imagePaths_append, imagePaths_append, himg, htimg, List.map_cons,
        List.flatten_cons]
      simp [imagePaths]
    · rw [clickableCells_append, clickableCells_append, hclick, htclick,
        List.length_cons, List.replicate_succ, List.flatten_cons]
      simp [clickableCells]

/-- Exact clickable-cell content of the app-store block: one cell per badge
file that exists, each independently of the other. -/
theorem buttons_clickables_eq (fs : Fs) (lang : Lang) :
    clickableCells (add_app_store_buttons fs lang) =
      (if fs.pathExists (googlePlayImg fs) = true then
        [(googlePlayImg fs,
          "https://play.google.com/store/apps/details?id=com.nextcloud.talk2")]
       else []) ++
      (if fs.pathExists (appStoreImg fs) = true then
        [(appStoreImg fs,
          "https://itunes.apple.com/us/app/nextcloud-talk/id1296825574")]
       else []) := by
  unfold add_app_store_buttons
  by_cases h1 : fs.pathExists (googlePlayImg fs) <;>
    by_cases h2 : fs.pathExists (appStoreImg fs) <;>
      simp [h1, h2, clickableCells]

/-! ## Claim C3 (corrected) -/

/-- Counterexample to C3 as stated: with `logo_path = None` the logo
element is not omitted — the story of the concrete run still renders a
logo image, the default bundled one. -/
theorem generate_pdf_logo_not_omitted_counterexample :
    (pdfStory singleRun0).map List.head? =
      some (some (Flowable.image "assets/Nextcloud_Logo.jpg" 150 106)) := by
  decide

/-- C3 amended, element by element and for every mixed asset
configuration: `generate_pdf` never raises over missing assets — in either
mode (given the user records' credential keys) its story's images are
exactly the per-block logo slot followed by that block's QR images, and its
clickable cells are exactly the per-block badge cells; the QR block is
empty whenever its path is absent or not on disk; each app-store badge cell
appears exactly when that badge file exists, independently of the other;
and a missing logo path is not omitted but falls back to the default
bundled logo image. -/
theorem generate_pdf_missing_assets :
    (∀ fs ud qr out cfg lang logo bg sn un pw,
       ud.username = some un → ud.password = some pw →
       storyAssets (generate_pdf fs ud qr out cfg lang false logo bg sn) =
         some (imagePaths [imSiteOf fs logo] ++ imagePaths (qrFlowables fs qr lang),
               clickableCells (add_app_store_buttons fs lang))) ∧
    (∀ fs ud qr out cfg lang logo bg sn users,
       ud.users = some users →
       (∀ u ∈ users, u.username.isSome ∧ u.password.isSome) →
       storyAssets (generate_pdf fs ud qr out cfg lang true logo bg sn) =
         some ((users.map fun u => imagePaths [imSiteOf fs logo] ++
                  imagePaths (qrFlowables fs u.qr_code_path lang)).flatten,
               (List.replicate users.length
                  (clickableCells (add_app_store_buttons fs lang))).flatten)) ∧
    (∀ fs qr lang, fileMissing fs qr → qrFlowables fs qr lang = []) ∧
    (∀ fs lang,
       clickableCells (add_app_store_buttons fs lang) =
         (if fs.pathExists (googlePlayImg fs) = true then
           [(googlePlayImg fs,
             "https://play.google.com/store/apps/details?id=com.nextcloud.talk2")]
          else []) ++
         (if fs.pathExists (appStoreImg fs) = true then
           [(appStoreImg fs,
             "https://itunes.apple.com/us/app/nextcloud-talk/id1296825574")]
          else [])) ∧
    (∀ fs logo, fileMissing fs logo → imSiteOf fs logo = im) := by
  refine ⟨?_, ?_, qr_missing_empty, buttons_clickables_eq, imSiteOf_missing⟩
  · intro fs ud qr out cfg lang logo bg sn un pw hu hp
    obtain ⟨dn, hsec⟩ := section_ok_of fs ud.toUserData qr cfg lang
      (imSiteOf fs logo) sn un pw hu hp
    obtain ⟨hi, hc⟩ := section_assets_eq fs ud.toUserData qr cfg lang logo sn _ hsec
    rw [generate_pdf_single_eq, hsec]
    dsimp only [storyAssets]
    rw [hi, hc]
  · intro fs ud qr out cfg lang logo bg sn users husers hall
    obtain ⟨story, hbm, himg, hclick⟩ := buildMulti_assets_eq fs cfg lang logo sn
      users hall
    rw [generate_pdf_multi_eq fs ud qr out cfg lang logo bg sn users husers, hbm]
    dsimp only [storyAssets]
    rw [himg, hclick]

/-- Witness for the amended C3, including a mixed configuration: on `fs1`
the QR file and the Google Play badge exist while the App Store badge and
the logo are missing, and the single-user build still succeeds with
exactly those elements; the all-missing runs succeed with only the default
logo; a missing QR block is empty; a present/absent badge pair gives
exactly one cell; a missing logo falls back to the default. -/
theorem generate_pdf_missing_assets_witness :
    storyAssets (generate_pdf fs1 singleArg0 (some "tmp/qr.jpg") "out.pdf"
      "cloud.example.com" lang0 false none none (some "Example Cloud")) =
        some (imagePaths [imSiteOf fs1 none] ++
                imagePaths (qrFlowables fs1 (some "tmp/qr.jpg") lang0),
              clickableCells (add_app_store_buttons fs1 lang0)) ∧
    storyAssets (generate_pdf fs0 singleArg0 none "out.pdf" "cloud.example.com"
      lang0 false none none (some "Example Cloud")) =
        some (imagePaths [imSiteOf fs0 none] ++
                imagePaths (qrFlowables fs0 none lang0),
              clickableCells (add_app_store_buttons fs0 lang0)) ∧
    storyAssets (generate_pdf fs0 multiArg0 none "out.pdf" "cloud.example.com"
      lang0 true none none (some "Example Cloud")) =
        some (([user0].map fun u => imagePaths [imSiteOf fs0 none] ++
                 imagePaths (qrFlowables fs0 u.qr_code_path lang0)).flatten,
              (List.replicate [user0].length
                 (clickableCells (add_app_store_buttons fs0 lang0))).flatten) ∧
    qrFlowables fs0 none lang0 = [] ∧
    qrFlowables fs1 (some "tmp/missing.jpg") lang0 = [] ∧
    clickableCells (add_app_store_buttons fs1 lang0) =
      [("modules/../assets/google_play.jpg",
        "https://play.google.com/store/apps/details?id=com.nextcloud.talk2")] ∧
    imSiteOf fs1 none = im :=
  ⟨generate_pdf_missing_assets.1 fs1 singleArg0 (some "tmp/qr.jpg") "out.pdf"
     "cloud.example.com" lang0 none none (some "Example Cloud") "alice" "secret"
     rfl rfl,
   generate_pdf_missing_assets.1 fs0 singleArg0 none "out.pdf"
     "cloud.example.com" lang0 none none (some "Example Cloud") "alice" "secret"
     rfl rfl,
   generate_pdf_missing_assets.2.1 fs0 multiArg0 none "out.pdf"
     "cloud.example.com" lang0 none none (some "Example Cloud") [user0] rfl
     (fun u hu => by rw [List.mem_singleton.mp hu]; exact ⟨rfl, rfl⟩),
   generate_pdf_missing_assets.2.2.1 fs0 none lang0 trivial,
   generate_pdf_missing_assets.2.2.1 fs1 (some "tmp/missing.jpg") lang0 rfl,
   (generate_pdf_missing_assets.2.2.2.1 fs1 lang0).trans (by decide),
   generate_pdf_missing_assets.2.2.2.2 fs1 none trivial⟩

/-! ## Claim C4 -/

/-- C4: for a record with both credentials, the greeting block succeeds and
its tables are exactly the two boxed (style contains `BOX`) single-cell
tables whose sole cell contents are the raw username and password strings,
character for character. -/
theorem credentials_rendered_verbatim (u : UserData) (lang : Lang)
    (sn : Option String) (cfg : String) (un pw : String)
    (hu : u.username = some un) (hp : u.password = some pw) :
    greetingTables (add_greeting_and_password u lang sn cfg) =
      some [([[Cell.str un]], credTableStyle), ([[Cell.str pw]], credTableStyle)] ∧
    "BOX" ∈ credTableStyle := by
  obtain ⟨dn, hg⟩ := add_greeting_ok_of u lang sn cfg un pw hu hp
  constructor
  · rw [hg]
    dsimp only [greetingTables]
    rw [greeting_strTables]
  · decide

/-- Witness for C4 at the concrete record `user0`. -/
theorem credentials_rendered_verbatim_witness :
    user0.username = some "alice" ∧ user0.password = some "secret" ∧
    (greetingTables (add_greeting_and_password user0 lang0 (some "Example Cloud")
        "cloud.example.com") =
      some [([[Cell.str "alice"]], credTableStyle),
            ([[Cell.str "secret"]], credTableStyle)] ∧
    "BOX" ∈ credTableStyle) :=
  ⟨rfl, rfl, credentials_rendered_verbatim user0 lang0 (some "Example Cloud")
    "cloud.example.com" "alice" "secret" rfl rfl⟩

/-! ## Claim C8 -/

/-- C8: a user record with no `username` or no `password` key makes
`generate_pdf` raise a `KeyError` that propagates uncaught — in single-user
mode for the record itself, in multi-user mode for any such record in the
`users` list. -/
theorem missing_credentials_raise :
    (∀ fs ud qr out cfg lang logo bg sn,
       ud.username = none ∨ ud.password = none →
       pdfRaises (generate_pdf fs ud qr out cfg lang false logo bg sn) = true) ∧
    (∀ fs ud qr out cfg lang logo bg sn users u,
       ud.users = some users → u ∈ users →
       u.username = none ∨ u.password = none →
       pdfRaises (generate_pdf fs ud qr out cfg lang true logo bg sn) = true) := by
  constructor
  · intro fs ud qr out cfg lang logo bg sn h
    obtain ⟨e, he⟩ := section_error fs ud.toUserData qr cfg lang
      (imSiteOf fs logo) sn h
    rw [generate_pdf_single_eq, he]
    rfl
  · intro fs ud qr out cfg lang logo bg sn users u husers hmem h
    obtain ⟨e, he⟩ := buildMultiStory_error fs cfg lang (imSiteOf fs logo) sn
      users u hmem h
    rw [generate_pdf_multi_eq fs ud qr out cfg lang logo bg sn users husers, he]
    rfl

/-- Witness for C8: concrete runs over records with no `username` key. -/
theorem missing_credentials_raise_witness :
    badSingleArg0.username = none ∧
    pdfRaises (generate_pdf fs0 badSingleArg0 none "out.pdf" "cloud.example.com"
      lang0 false none none (some "Example Cloud")) = true ∧
    badMultiArg0.users = some [user0, badUser0] ∧ badUser0.username = none ∧
    pdfRaises (generate_pdf fs0 badMultiArg0 none "out.pdf" "cloud.example.com"
      lang0 true none none (some "Example Cloud")) = true :=
  ⟨rfl,
   missing_credentials_raise.1 fs0 badSingleArg0 none "out.pdf"
     "cloud.example.com" lang0 none none (some "Example Cloud") (Or.inl rfl),
   rfl, rfl,
   missing_credentials_raise.2 fs0 badMultiArg0 none "out.pdf"
     "cloud.example.com" lang0 none none (some "Example Cloud") [user0, badUser0]
     badUser0 rfl (List.mem_cons_of_mem user0 (List.mem_cons_self badUser0 []))
     (Or.inl rfl)⟩

/-! ## Claim C10 -/

/-- C10: multi-user mode ignores the top-level `qr_code_path` argument
entirely — any two values give identical output, and the story is built
from each record's own `qr_code_path` key — while single-user mode builds
its one section with exactly the top-level argument. -/
theorem qr_path_argument_usage :
    (∀ fs ud qr1 qr2 out cfg lang logo bg sn,
       generate_pdf fs ud qr1 out cfg lang true logo bg sn =
       generate_pdf fs ud qr2 out cfg lang true logo bg sn) ∧
    (∀ fs ud qr out cfg lang logo bg sn users,
       ud.users = some users →
       pdfStory (generate_pdf fs ud qr out cfg lang true logo bg sn) =
         pagesJoin (sectionsOf fs cfg lang (imSiteOf fs logo) sn users)) ∧
    (∀ fs ud qr out cfg lang logo bg sn,
       pdfStory (generate_pdf fs ud qr out cfg lang false logo bg sn) =
         sectionStory (_build_single_user_section fs ud.toUserData qr cfg lang
           (imSiteOf fs logo) sn)) := by
  refine ⟨?_, ?_, ?_⟩
  · intro fs ud qr1 qr2 out cfg lang logo bg sn
    rfl
  · intro fs ud qr out cfg lang logo bg sn users husers
    rw [generate_pdf_multi_eq fs ud qr out cfg lang logo bg sn users husers,
      buildMulti_sections]
    cases hs : sectionsOf fs cfg lang (imSiteOf fs logo) sn users with
    | error e => rfl
    | ok secs => rfl
  · intro fs ud qr out cfg lang logo bg sn
    rw [generate_pdf_single_eq]
    cases hsec : _build_single_user_section fs ud.toUserData qr cfg lang
        (imSiteOf fs logo) sn with
    | error e => rfl
    | ok story => rfl

/-- Witness for C10 at the concrete runs: changing the top-level QR path
does not change the multi-user output, whose story is the per-record
blocks; the single-user story is the section built with the top-level
argument. -/
theorem qr_path_argument_usage_witness :
    (generate_pdf fs0 multiArg0 (some "tmp/qr.jpg") "out.pdf"
        "cloud.example.com" lang0 true none none (some "Example Cloud") =
      generate_pdf fs0 multiArg0 none "out.pdf" "cloud.example.com" lang0 true
        none none (some "Example Cloud")) ∧
    pdfStory (generate_pdf fs0 multiArg0 none "out.pdf" "cloud.example.com"
        lang0 true none none (some "Example Cloud")) =
      pagesJoin (sectionsOf fs0 "cloud.example.com" lang0 (imSiteOf fs0 none)
        (some "Example Cloud") [user0]) ∧
    pdfStory (generate_pdf fs0 singleArg0 none "out.pdf" "cloud.example.com"
        lang0 false none none (some "Example Cloud")) =
      sectionStory (_build_single_user_section fs0 singleArg0.toUserData none
        "cloud.example.com" lang0 (imSiteOf fs0 none) (some "Example Cloud")) :=
  ⟨qr_path_argument_usage.1 fs0 multiArg0 (some "tmp/qr.jpg") none "out.pdf"
     "cloud.example.com" lang0 none none (some "Example Cloud"),
   qr_path_argument_usage.2.1 fs0 multiArg0 none "out.pdf" "cloud.example.com"
     lang0 none none (some "Example Cloud") [user0] rfl,
   qr_path_argument_usage.2.2 fs0 singleArg0 none "out.pdf" "cloud.example.com"
     lang0 none none (some "Example Cloud")⟩
